import Mathlib

/-!
Shallow embedding of the pod-security-admission policy framework
(k8s.io/pod-security-admission/policy): field paths, lazy path closures,
the violations accumulator, the container visitor, and the individual
checks referenced by the claims (sysctls, runAsNonRoot, runAsUser,
capabilities_restricted, restrictedVolumes).

Go pointers that may be nil are embedded as `Option`; nil-able function
values (`PathFn`, `ErrFn`) are embedded as `Option` of their (pure)
result, with an explicit `realize`/`run` operation standing for calling
the closure.
-/

namespace Policy

/-! ### field.Path (k8s.io/apimachinery/pkg/util/validation/field)

A `field.Path` is a linked list of segments; `String()` renders the root
name bare, later names preceded by a dot, and indexes/keys in brackets.
-/

inductive PathSeg where
  | child (name : String)
  | index (i : Nat)
  | key (k : String)
deriving DecidableEq, Repr

structure FPath where
  segs : List PathSeg
deriving DecidableEq, Repr

def renderSeg (acc : String) : PathSeg → String
  | .child n => if acc = "" then n else acc ++ "." ++ n
  | .index i => acc ++ "[" ++ toString i ++ "]"
  | .key k => acc ++ "[" ++ k ++ "]"

def FPath.render (p : FPath) : String := p.segs.foldl renderSeg ""

def NewPath (name : String) (moreNames : List String := []) : FPath :=
  ⟨.child name :: moreNames.map .child⟩

def FPath.Child (p : FPath) (n : String) : FPath := ⟨p.segs ++ [.child n]⟩

def FPath.Index (p : FPath) (i : Nat) : FPath := ⟨p.segs ++ [.index i]⟩

def FPath.Key (p : FPath) (k : String) : FPath := ⟨p.segs ++ [.key k]⟩

/-! ### PathFn (policy/paths.go)

Go: `type PathFn func() *field.Path`, where the function value itself may
be nil.  `none` is the nil function; `some r` is a closure whose call
returns `r` (`some p` a real path, `none` a nil path pointer).
-/

def PathFn : Type := Option (Option FPath)

/-- Calling the closure (`pathFn()`); the nil function realizes to nil. -/
def PathFn.realize : PathFn → Option FPath
  | none => none
  | some r => r

def withPath (path : Option FPath) : PathFn :=
  match path with
  | none => none
  | some p => some (some p)

def PathFn.index (parent : PathFn) (i : Nat) : PathFn :=
  match parent with
  | none => none
  | some r =>
    some (match r with
          | none => none
          | some p => some (p.Index i))

def PathFn.child (parent : PathFn) (name : String) : PathFn :=
  match parent with
  | none => none
  | some r =>
    some (match r with
          | none => none
          | some p => some (p.Child name))

def PathFn.key (parent : PathFn) (k : String) : PathFn :=
  match parent with
  | none => none
  | some r =>
    some (match r with
          | none => none
          | some p => some (p.Key k))

/-! Path constants (policy/paths.go, PathFn generation). -/

def specPath : PathFn := withPath (some (NewPath "spec"))
def initContainersFldPath : PathFn := specPath.child "initContainers"
def containersFldPath : PathFn := specPath.child "containers"
def ephemeralContainersFldPath : PathFn := specPath.child "ephemeralContainers"
def securityContextPath : PathFn := specPath.child "securityContext"
def runAsNonRootPath : PathFn := securityContextPath.child "runAsNonRoot"
def runAsUserPath : PathFn := securityContextPath.child "runAsUser"
def sysctlsPath : PathFn := securityContextPath.child "sysctls"

/-- Path constant `volumesPath` as used by `restrictedVolumes_1_0`, which manipulates it
as a raw `*field.Path` (`.Index(i)`, `.Child(n)`, `.String()`). -/
def volumesFieldPath : FPath := (NewPath "spec").Child "volumes"

/-! ### field.Error and ErrFn (policy/violations.go) -/

inductive ErrType where
  | forbidden
  | required
deriving DecidableEq, Repr

/-- The dynamically-typed BadValue field of a `field.Error`,
restricted to the value shapes this package uses. -/
inductive BadValue where
  | str (s : String)
  | strList (l : List String)
  | int (i : Int)
deriving DecidableEq, Repr

structure FieldError where
  type : ErrType
  field : String
  badValue : BadValue
  detail : String
deriving DecidableEq, Repr

/-- Go `field.Forbidden(path, detail)`: BadValue is the empty string. -/
def FieldForbidden (p : FPath) (detail : String) : FieldError :=
  ⟨.forbidden, p.render, .str "", detail⟩

/-- Go `field.Required(path, detail)`: BadValue is the empty string. -/
def FieldRequired (p : FPath) (detail : String) : FieldError :=
  ⟨.required, p.render, .str "", detail⟩

/-- Go: `type ErrFn func() *field.Error`, itself nil-able. -/
def ErrFn : Type := Option (Option FieldError)

/-- Calling a non-nil `ErrFn`; `run none = none` stands for skipping a
nil function value. -/
def ErrFn.run : ErrFn → Option FieldError
  | none => none
  | some r => r

def forbidden (pathFn : PathFn) : ErrFn :=
  match pathFn with
  | none => none
  | some r =>
    some (match r with
          | none => none
          | some p => some (FieldForbidden p ""))

def required (pathFn : PathFn) : ErrFn :=
  match pathFn with
  | none => none
  | some r =>
    some (match r with
          | none => none
          | some p => some (FieldRequired p ""))

def ErrFn.withBadValue (f : ErrFn) (badValue : BadValue) : ErrFn :=
  match f with
  | none => none
  | some r =>
    some (match r with
          | none => none
          | some e => some { e with badValue := badValue })

/-- Modelled from the spec: the two-argument `forbidden(pathFn, badValue)`
helper used by `check_runAsNonRoot.go` is not among the provided sources;
per the spec, a Forbidden structured error carries the realized field
location together with the literal offending value(s). -/
def forbiddenValue (pathFn : PathFn) (badValue : List String) : ErrFn :=
  (forbidden pathFn).withBadValue (.strList badValue)

/-! ### violations accumulator (src/unnamed/part_000) -/

structure Violations (T : Type) where
  data : List T := []
  errs : List FieldError := []
  withFieldErrors : Bool := false

/-- Method `violations.Add`: always appends the label; error builders are run
only when `withFieldErrors` is set, and nil builders as well as builders
returning nil are skipped. -/
def Violations.Add {T : Type} (v : Violations T) (d : T)
    (errFns : List ErrFn := []) : Violations T :=
  { v with
    data := v.data ++ [d]
    errs := if v.withFieldErrors then v.errs ++ errFns.filterMap ErrFn.run
            else v.errs }

def Violations.Empty {T : Type} (v : Violations T) : Bool := v.data.isEmpty

def Violations.Data {T : Type} (v : Violations T) : List T := v.data

def Violations.Len {T : Type} (v : Violations T) : Nat := v.data.length

def Violations.Errs {T : Type} (v : Violations T) : List FieldError := v.errs

/-- Modelled from the spec: `NewViolations` (used by `runAsUser_1_23`) is
not among the provided sources; it constructs an empty accumulator
carrying the field-error toggle. -/
def NewViolations (T : Type) (withFieldErrors : Bool) : Violations T :=
  { withFieldErrors := withFieldErrors }

/-! ### Pod data model (the slice of corev1 this package reads) -/

structure Capabilities where
  add : List String := []
  drop : List String := []
deriving DecidableEq, Repr

structure SecurityContext where
  runAsNonRoot : Option Bool := none
  runAsUser : Option Int := none
  capabilities : Option Capabilities := none
deriving DecidableEq, Repr

structure Container where
  name : String := ""
  securityContext : Option SecurityContext := none
deriving DecidableEq, Repr

/-- Type `corev1.EphemeralContainer` embeds `EphemeralContainerCommon`, which
the visitor casts to `corev1.Container`. -/
structure EphemeralContainer where
  ephemeralContainerCommon : Container
deriving DecidableEq, Repr

structure Sysctl where
  name : String := ""
  value : String := ""
deriving DecidableEq, Repr

structure PodSecurityContext where
  runAsNonRoot : Option Bool := none
  runAsUser : Option Int := none
  sysctls : List Sysctl := []
deriving DecidableEq, Repr

/-- Type `corev1.PodOS`; `Name` is a string, `corev1.Windows = "windows"`. -/
structure PodOS where
  name : String
deriving DecidableEq, Repr

def Windows : String := "windows"

/-- Type `corev1.Volume` with its inline `VolumeSource` fields, embedded by
presence only (`some ()` = the source is set). -/
structure Volume where
  name : String := ""
  configMap : Option Unit := none
  csi : Option Unit := none
  downwardAPI : Option Unit := none
  emptyDir : Option Unit := none
  ephemeral : Option Unit := none
  persistentVolumeClaim : Option Unit := none
  projected : Option Unit := none
  secret : Option Unit := none
  hostPath : Option Unit := none
  gcePersistentDisk : Option Unit := none
  awsElasticBlockStore : Option Unit := none
  gitRepo : Option Unit := none
  nfs : Option Unit := none
  iscsi : Option Unit := none
  glusterfs : Option Unit := none
  rbd : Option Unit := none
  flexVolume : Option Unit := none
  cinder : Option Unit := none
  cephfs : Option Unit := none
  flocker : Option Unit := none
  fc : Option Unit := none
  azureFile : Option Unit := none
  vsphereVolume : Option Unit := none
  quobyte : Option Unit := none
  azureDisk : Option Unit := none
  photonPersistentDisk : Option Unit := none
  portworxVolume : Option Unit := none
  scaleIO : Option Unit := none
  storageos : Option Unit := none
deriving DecidableEq, Repr

structure PodSpec where
  initContainers : List Container := []
  containers : List Container := []
  ephemeralContainers : List EphemeralContainer := []
  securityContext : Option PodSecurityContext := none
  os : Option PodOS := none
  volumes : List Volume := []
deriving DecidableEq, Repr

structure ObjectMeta where
  annotationPairs : List (String × String) := []
deriving DecidableEq, Repr

/-! ### options (the repository carries two generations of this type:
`withFieldErrors` read by the visitor/sysctls/runAsNonRoot/runAsUser
generation, `withErrList` read by the errListHandler generation used in
`restrictedVolumes_1_0`; both flags are carried here). -/

structure options where
  withFieldErrors : Bool := false
  withErrList : Bool := false
deriving DecidableEq, Repr

/-- Method `options.errListHandler` runs its error-appending thunk only when
`withErrList` is set; embedded as a conditional append. -/
def options.errListHandler (o : options) (errList : List FieldError)
    (err : FieldError) : List FieldError :=
  if o.withErrList then errList ++ [err] else errList

/-! ### CheckResult and the check framework -/

structure CheckResult where
  Allowed : Bool := false
  ForbiddenReason : String := ""
  ForbiddenDetail : String := ""
  ErrList : List FieldError := []
deriving DecidableEq, Repr

structure Version where
  major : Nat
  minor : Nat
deriving DecidableEq, Repr

def MajorMinorVersion (major minor : Nat) : Version := ⟨major, minor⟩

/-- Strict ordering on (major, minor) schema versions. -/
def Version.lt (a b : Version) : Prop :=
  a.major < b.major ∨ (a.major = b.major ∧ a.minor < b.minor)

instance (a b : Version) : Decidable (Version.lt a b) :=
  inferInstanceAs (Decidable (_ ∨ _))

inductive Level where
  | baseline
  | restricted
deriving DecidableEq, Repr

/-- Go `Option` values passed to a `CheckPodFn`; a nil entry is skipped. -/
def OptionFn : Type := Option (options → options)

def CheckPodFn : Type :=
  ObjectMeta → PodSpec → List OptionFn → CheckResult

/-- Helper `withOptions` adapts a fixed-options check to the variadic-Option
signature stored in the registry. -/
def withOptions (f : ObjectMeta → PodSpec → options → CheckResult) :
    CheckPodFn :=
  fun podMetadata podSpec opts =>
    f podMetadata podSpec
      (opts.foldl (fun acc o => match o with
                                | none => acc
                                | some g => g acc) {})

def WithErrList : OptionFn := some (fun o => { o with withErrList := true })

structure VersionedCheck where
  MinimumVersion : Version
  CheckPod : CheckPodFn
  OverrideCheckIDs : List String := []

structure Check where
  ID : String
  Level : Level
  Versions : List VersionedCheck

/-! ### String helpers.

Modelled from the spec: `pluralize` and `joinQuote` are not among the
provided sources; the spec requires correct singular/plural phrasing and
comma-joined, quoted subject names. -/

def pluralize (singular plural : String) (count : Nat) : String :=
  if count = 1 then singular else plural

def joinQuote (l : List String) : String :=
  String.intercalate ", " (l.map fun s => "\"" ++ s ++ "\"")

/-! ### Sorted string sets (k8s.io/apimachinery/pkg/util/sets.String):
insertion is idempotent, `List()` returns the members sorted. -/

abbrev StringSet : Type := List String

def NewString (l : List String) : StringSet := l

def StringSet.Has (s : StringSet) (x : String) : Bool := x ∈ s

def StringSet.Insert (s : StringSet) (x : String) : StringSet :=
  if x ∈ s then s else s ++ [x]

def insertSorted (x : String) : List String → List String
  | [] => [x]
  | y :: ys => if x ≤ y then x :: y :: ys else y :: insertSorted x ys

/-- Go `sets.String.List()`: the members in sorted order. -/
def StringSet.SortedList (s : StringSet) : List String :=
  s.foldr insertSorted []

/-! ### Container visitor (policy/visitor.go)

The visitor is embedded by its trace: the list of
(container, pathFn) pairs in invocation order.  `visitLoop` is one of the
three `for i := range` loops. -/

def visitLoop (withFieldErrors : Bool) (root : PathFn) :
    Nat → List Container → List (Container × PathFn)
  | _, [] => []
  | i, c :: rest =>
    (c, if withFieldErrors then root.index i else none)
      :: visitLoop withFieldErrors root (i + 1) rest

def visitContainers (podSpec : PodSpec) (opts : options) :
    List (Container × PathFn) :=
  visitLoop opts.withFieldErrors initContainersFldPath 0 podSpec.initContainers
    ++ visitLoop opts.withFieldErrors containersFldPath 0 podSpec.containers
    ++ visitLoop opts.withFieldErrors ephemeralContainersFldPath 0
        (podSpec.ephemeralContainers.map (·.ephemeralContainerCommon))

/-- Modelled from the spec: `visitContainersWithPath` (used by
`capabilitiesRestricted_1_22`) is not among the provided sources; per the
visitor contract it traverses the same three groups in the same order,
always passing the per-container path context. -/
def visitContainersWithPath (podSpec : PodSpec) :
    List (Container × PathFn) :=
  visitLoop true initContainersFldPath 0 podSpec.initContainers
    ++ visitLoop true containersFldPath 0 podSpec.containers
    ++ visitLoop true ephemeralContainersFldPath 0
        (podSpec.ephemeralContainers.map (·.ephemeralContainerCommon))

/-! ### sysctls check (policy/visitor.go, lines 99-176) -/

def sysctls_allowed_1_0 : StringSet :=
  NewString
    ["kernel.shm_rmid_forced", "net.ipv4.ip_local_port_range",
     "net.ipv4.tcp_syncookies", "net.ipv4.ping_group_range",
     "net.ipv4.ip_unprivileged_port_start"]

def sysctls_allowed_1_27 : StringSet :=
  NewString
    ["kernel.shm_rmid_forced", "net.ipv4.ip_local_port_range",
     "net.ipv4.tcp_syncookies", "net.ipv4.ping_group_range",
     "net.ipv4.ip_unprivileged_port_start",
     "net.ipv4.ip_local_reserved_ports"]

/-- The sysctl slice guarded by `podSpec.SecurityContext != nil` (a nil
security context contributes no iterations). -/
def PodSpec.securityContextSysctls (ps : PodSpec) : List Sysctl :=
  match ps.securityContext with
  | some sc => sc.sysctls
  | none => []

/-- The `for i, sysctl := range podSpec.SecurityContext.Sysctls` loop of
`sysctls`, carrying the running index. -/
def sysctlsLoop (sysctls_allowed_set : StringSet) (opts : options) :
    Nat → List Sysctl → Violations String → Violations String
  | _, [], v => v
  | i, sysctl :: rest, v =>
    let v' :=
      if sysctls_allowed_set.Has sysctl.name then v
      else
        let errFn : ErrFn :=
          if opts.withFieldErrors then
            (forbidden ((sysctlsPath.index i).child "name")).withBadValue
              (.strList [sysctl.name])
          else none
        v.Add sysctl.name [errFn]
    sysctlsLoop sysctls_allowed_set opts (i + 1) rest v'

def sysctls (podMetadata : ObjectMeta) (podSpec : PodSpec)
    (sysctls_allowed_set : StringSet) (opts : options) : CheckResult :=
  let forbiddenSysctls :=
    sysctlsLoop sysctls_allowed_set opts 0 podSpec.securityContextSysctls
      { withFieldErrors := opts.withFieldErrors }
  if forbiddenSysctls.Empty then { Allowed := true }
  else
    { Allowed := false
      ForbiddenReason := "forbidden sysctls"
      ForbiddenDetail := String.intercalate ", " forbiddenSysctls.Data
      ErrList := forbiddenSysctls.Errs }

def sysctls_1_0 (podMetadata : ObjectMeta) (podSpec : PodSpec)
    (opts : options) : CheckResult :=
  sysctls podMetadata podSpec sysctls_allowed_1_0 opts

def sysctls_1_27 (podMetadata : ObjectMeta) (podSpec : PodSpec)
    (opts : options) : CheckResult :=
  sysctls podMetadata podSpec sysctls_allowed_1_27 opts

/-! ### runAsNonRoot check (policy/check_runAsNonRoot.go) -/

/-- Go `container.SecurityContext != nil && container.SecurityContext.RunAsNonRoot != nil`
collapsed into one optional read. -/
def Container.getRunAsNonRoot (c : Container) : Option Bool :=
  match c.securityContext with
  | some sc => sc.runAsNonRoot
  | none => none

/-- Go `podSpec.SecurityContext != nil && podSpec.SecurityContext.RunAsNonRoot != nil`
collapsed into one optional read. -/
def PodSpec.getRunAsNonRoot (ps : PodSpec) : Option Bool :=
  match ps.securityContext with
  | some sc => sc.runAsNonRoot
  | none => none

/-- The visitor body of `runAsNonRoot_1_0`, as one fold step over the
visit trace.  The accumulator is (explicitlyBadContainers,
implicitlyBadContainers, explicitlyErrFns). -/
def runAsNonRootStep (opts : options) (podRunAsNonRoot : Bool)
    (acc : Violations String × Violations String × List ErrFn)
    (cv : Container × PathFn) :
    Violations String × Violations String × List ErrFn :=
  let (explicitlyBad, implicitlyBad, errFns) := acc
  match cv.1.getRunAsNonRoot with
  | some ranr =>
    -- container explicitly set runAsNonRoot
    if ranr then acc
    else
      (explicitlyBad.Add cv.1.name,
       implicitlyBad,
       errFns
         ++ [forbiddenValue ((cv.2.child "securityContext").child "runAsNonRoot")
              ["false"]])
  | none =>
    -- container did not explicitly set runAsNonRoot
    if podRunAsNonRoot then acc
    else
      (explicitlyBad,
       implicitlyBad.Add cv.1.name
         [if opts.withFieldErrors then required runAsNonRootPath else none],
       errFns)

def runAsNonRoot_1_0 (podMetadata : ObjectMeta) (podSpec : PodSpec)
    (opts : options) : CheckResult :=
  -- `var badSetters violations[string]` (zero value: withFieldErrors=false)
  let badSetters : Violations String := {}
  let (badSetters, podRunAsNonRoot) :=
    match podSpec.getRunAsNonRoot with
    | some ranr =>
      if ranr then (badSetters, true)
      else
        let errFn : ErrFn :=
          if opts.withFieldErrors then forbiddenValue runAsNonRootPath ["false"]
          else none
        (badSetters.Add "pod" [errFn], false)
    | none => (badSetters, false)
  let (explicitlyBadContainers, implicitlyBadContainers, explicitlyErrFns) :=
    (visitContainers podSpec opts).foldl
      (runAsNonRootStep opts podRunAsNonRoot) ({}, {}, [])
  let badSetters :=
    if explicitlyBadContainers.Empty then badSetters
    else
      badSetters.Add
        (pluralize "container" "containers" explicitlyBadContainers.Len
          ++ " " ++ joinQuote explicitlyBadContainers.Data)
        explicitlyErrFns
  if ¬badSetters.Empty then
    { Allowed := false
      ForbiddenReason := "runAsNonRoot != true"
      ForbiddenDetail :=
        String.intercalate " and " badSetters.Data
          ++ " must not set securityContext.runAsNonRoot=false"
      ErrList := badSetters.Errs }
  else if ¬implicitlyBadContainers.Empty then
    { Allowed := false
      ForbiddenReason := "runAsNonRoot != true"
      ForbiddenDetail :=
        "pod or "
          ++ pluralize "container" "containers" implicitlyBadContainers.Len
          ++ " " ++ joinQuote implicitlyBadContainers.Data
          ++ " must set securityContext.runAsNonRoot=true"
      ErrList := implicitlyBadContainers.Errs }
  else { Allowed := true }

/-! ### runAsUser check (policy/check_runAsUser.go)

The source builds per-container paths with the variadic
`pathFn.child("securityContext", "runAsUser")`; embedded as two
single-name `.child` compositions. -/

def runAsUserStep (acc : Violations String × List ErrFn)
    (cv : Container × PathFn) : Violations String × List ErrFn :=
  let (explicitlyBad, errFns) := acc
  match (match cv.1.securityContext with
         | some sc => sc.runAsUser
         | none => none) with
  | some u =>
    if u = 0 then
      (explicitlyBad.Add cv.1.name,
       errFns
         ++ [(forbidden ((cv.2.child "securityContext").child "runAsUser")).withBadValue
              (.int 0)])
    else acc
  | none => acc

def runAsUser_1_23 (podMetadata : ObjectMeta) (podSpec : PodSpec)
    (opts : options) : CheckResult :=
  let badSetters := NewViolations String opts.withFieldErrors
  let badSetters :=
    match (match podSpec.securityContext with
           | some sc => sc.runAsUser
           | none => none) with
    | some u =>
      if u = 0 then
        let errFn : ErrFn :=
          if opts.withFieldErrors then
            (forbidden runAsUserPath).withBadValue (.int 0)
          else none
        badSetters.Add "pod" [errFn]
      else badSetters
    | none => badSetters
  let (explicitlyBadContainers, explicitlyErrFns) :=
    (visitContainers podSpec opts).foldl runAsUserStep
      (NewViolations String opts.withFieldErrors, [])
  let badSetters :=
    if explicitlyBadContainers.Empty then badSetters
    else
      badSetters.Add
        (pluralize "container" "containers" explicitlyBadContainers.Len
          ++ " " ++ joinQuote explicitlyBadContainers.Data)
        explicitlyErrFns
  if ¬badSetters.Empty then
    { Allowed := false
      ForbiddenReason := "runAsUser=0"
      ForbiddenDetail :=
        String.intercalate " and " badSetters.Data ++ " must not set runAsUser=0"
      ErrList := badSetters.Errs }
  else { Allowed := true }

/-! ### capabilities_restricted check
(policy/check_capabilities_restricted.go) -/

def capabilityAll : String := "ALL"
def capabilityNetBindService : String := "NET_BIND_SERVICE"

/-- Modelled from the spec: the `Add(label, opts, errFns...)` variant used
by `capabilitiesRestricted_1_22` is not among the provided sources; it
appends the label and records the realized non-nil errors when the
options enable field errors. -/
def Violations.AddO {T : Type} (v : Violations T) (d : T) (opts : options)
    (errFns : List ErrFn := []) : Violations T :=
  { v with
    data := v.data ++ [d]
    errs := if opts.withFieldErrors then v.errs ++ errFns.filterMap ErrFn.run
            else v.errs }

def capabilitiesRestrictedStep (opts : options)
    (acc : StringSet × Violations String × Violations String)
    (cv : Container × PathFn) :
    StringSet × Violations String × Violations String :=
  let (forbiddenCapabilities, containersMissingDropAll,
       containersAddingForbidden) := acc
  match (match cv.1.securityContext with
         | some sc => sc.capabilities
         | none => none) with
  | none =>
    (forbiddenCapabilities,
     containersMissingDropAll.AddO cv.1.name opts
       [required (((cv.2.child "securityContext").child "capabilities").child
          "drop")],
     containersAddingForbidden)
  | some caps =>
    let droppedAll := caps.drop.any (· == capabilityAll)
    let containersMissingDropAll :=
      if droppedAll then containersMissingDropAll
      else
        containersMissingDropAll.AddO cv.1.name opts
          [forbiddenValue
            (((cv.2.child "securityContext").child "capabilities").child "drop")
            caps.drop]
    let forbiddenCapabilities :=
      caps.add.foldl
        (fun s c => if c == capabilityNetBindService then s else s.Insert c)
        forbiddenCapabilities
    let addedForbidden := caps.add.any (· != capabilityNetBindService)
    let containersAddingForbidden :=
      if addedForbidden then
        containersAddingForbidden.AddO cv.1.name opts
          [forbiddenValue
            (((cv.2.child "securityContext").child "capabilities").child "add")
            forbiddenCapabilities.SortedList]
      else containersAddingForbidden
    (forbiddenCapabilities, containersMissingDropAll,
     containersAddingForbidden)

def capabilitiesRestricted_1_22 (podMetadata : ObjectMeta)
    (podSpec : PodSpec) (opts : options) : CheckResult :=
  let (forbiddenCapabilities, containersMissingDropAll,
       containersAddingForbidden) :=
    (visitContainersWithPath podSpec).foldl
      (capabilitiesRestrictedStep opts) (NewString [], {}, {})
  let errList :=
    containersMissingDropAll.Errs ++ containersAddingForbidden.Errs
  let forbiddenDetails : List String :=
    (if containersMissingDropAll.Empty then []
     else
       [pluralize "container" "containers" containersMissingDropAll.Len
         ++ " " ++ joinQuote containersMissingDropAll.Data
         ++ " must set securityContext.capabilities.drop=[\"ALL\"]"])
      ++ (if containersAddingForbidden.Empty then []
          else
            [pluralize "container" "containers" containersAddingForbidden.Len
              ++ " " ++ joinQuote containersAddingForbidden.Data
              ++ " must not include "
              ++ joinQuote forbiddenCapabilities.SortedList
              ++ " in securityContext.capabilities.add"])
  if forbiddenDetails.length > 0 then
    { Allowed := false
      ForbiddenReason := "unrestricted capabilities"
      ForbiddenDetail := String.intercalate "; " forbiddenDetails
      ErrList := errList }
  else { Allowed := true }

def capabilitiesRestricted_1_25 (podMetadata : ObjectMeta)
    (podSpec : PodSpec) (opts : options) : CheckResult :=
  -- Windows pods are exempted using pod.spec.os when set to windows.
  match podSpec.os with
  | some os =>
    if os.name == Windows then { Allowed := true }
    else capabilitiesRestricted_1_22 podMetadata podSpec opts
  | none => capabilitiesRestricted_1_22 podMetadata podSpec opts

/-! ### restrictedVolumes check (src/unnamed/part_003) -/

/-- The eight inline volume sources the restricted profile allows; a
volume with any of them set is skipped by the loop (`continue`). -/
def allowedVolumeSource (volume : Volume) : Bool :=
  volume.configMap.isSome || volume.csi.isSome || volume.downwardAPI.isSome
    || volume.emptyDir.isSome || volume.ephemeral.isSome
    || volume.persistentVolumeClaim.isSome || volume.projected.isSome
    || volume.secret.isSome

/-- Modelled from the spec: the eager `withBadValue(err, value)` helper of
the errListHandler generation is not among the provided sources; it sets
the offending value(s) on an already-built structured error. -/
def FieldError.setBadValue (e : FieldError) (badValue : BadValue) :
    FieldError :=
  { e with badValue := badValue }

/-- The first matching case of the restricted-type switch in
`restrictedVolumes_1_0`: the type name inserted into `badVolumeTypes`,
and the child segment used to build the bad value.  The `nfs` case
reproduces the source literally: its bad value is built with
`Child("gitRepo")`. -/
def restrictedCase (volume : Volume) : String × String :=
  if volume.hostPath.isSome then ("hostPath", "hostPath")
  else if volume.gcePersistentDisk.isSome then
    ("gcePersistentDisk", "gcePersistentDisk")
  else if volume.awsElasticBlockStore.isSome then
    ("awsElasticBlockStore", "awsElasticBlockStore")
  else if volume.gitRepo.isSome then ("gitRepo", "gitRepo")
  else if volume.nfs.isSome then ("nfs", "gitRepo")
  else if volume.iscsi.isSome then ("iscsi", "iscsi")
  else if volume.glusterfs.isSome then ("glusterfs", "glusterfs")
  else if volume.rbd.isSome then ("rbd", "rbd")
  else if volume.flexVolume.isSome then ("flexVolume", "flexVolume")
  else if volume.cinder.isSome then ("cinder", "cinder")
  else if volume.cephfs.isSome then ("cephfs", "cephfs")
  else if volume.flocker.isSome then ("flocker", "flocker")
  else if volume.fc.isSome then ("fc", "fc")
  else if volume.azureFile.isSome then ("azureFile", "azureFile")
  else if volume.vsphereVolume.isSome then ("vsphereVolume", "vsphereVolume")
  else if volume.quobyte.isSome then ("quobyte", "quobyte")
  else if volume.azureDisk.isSome then ("azureDisk", "azureDisk")
  else if volume.photonPersistentDisk.isSome then
    ("photonPersistentDisk", "photonPersistentDisk")
  else if volume.portworxVolume.isSome then
    ("portworxVolume", "portworxVolume")
  else if volume.scaleIO.isSome then ("scaleIO", "scaleIO")
  else if volume.storageos.isSome then ("storageos", "storageos")
  else ("unknown", "unknown")

/-- The `for i, volume := range podSpec.Volumes` loop of
`restrictedVolumes_1_0`; accumulator (badVolumes, badVolumeTypes,
errList). -/
def restrictedVolumesLoop (opts : options) :
    Nat → List Volume → List String × StringSet × List FieldError →
    List String × StringSet × List FieldError
  | _, [], acc => acc
  | i, volume :: rest, (badVolumes, badVolumeTypes, errList) =>
    let acc' :=
      if allowedVolumeSource volume then (badVolumes, badVolumeTypes, errList)
      else
        let volumesIndexPath := volumesFieldPath.Index i
        let (typeName, childName) := restrictedCase volume
        (badVolumes ++ [volume.name],
         badVolumeTypes.Insert typeName,
         opts.errListHandler errList
           ((FieldForbidden volumesIndexPath "").setBadValue
             (.strList [(volumesIndexPath.Child childName).render])))
    restrictedVolumesLoop opts (i + 1) rest acc'

def restrictedVolumes_1_0 (podMetadata : ObjectMeta) (podSpec : PodSpec)
    (opts : options) : CheckResult :=
  let (badVolumes, badVolumeTypes, errList) :=
    restrictedVolumesLoop opts 0 podSpec.volumes ([], NewString [], [])
  if badVolumes.length > 0 then
    { Allowed := false
      ForbiddenReason := "restricted volume types"
      ForbiddenDetail :=
        pluralize "volume" "volumes" badVolumes.length
          ++ " " ++ joinQuote badVolumes
          ++ " " ++ pluralize "uses" "use" badVolumes.length
          ++ " "
          ++ pluralize "restricted volume type" "restricted volume types"
              badVolumeTypes.length
          ++ " " ++ joinQuote badVolumeTypes.SortedList
      ErrList := errList }
  else { Allowed := true }

/-! ### Registered check constructors -/

def CheckSysctls : Check :=
  { ID := "sysctls"
    Level := .baseline
    Versions :=
      [ { MinimumVersion := MajorMinorVersion 1 0
          CheckPod := withOptions sysctls_1_0 },
        { MinimumVersion := MajorMinorVersion 1 27
          CheckPod := withOptions sysctls_1_27 } ] }

/-- Modelled from the spec: the overridden baseline check's ID is declared
outside the provided sources. -/
def checkCapabilitiesBaselineID : String := "capabilities_baseline"

def CheckCapabilitiesRestricted : Check :=
  { ID := "capabilities_restricted"
    Level := .restricted
    Versions :=
      [ { MinimumVersion := MajorMinorVersion 1 22
          CheckPod := withOptions capabilitiesRestricted_1_22
          OverrideCheckIDs := [checkCapabilitiesBaselineID] },
        { MinimumVersion := MajorMinorVersion 1 25
          CheckPod := withOptions capabilitiesRestricted_1_25
          OverrideCheckIDs := [checkCapabilitiesBaselineID] } ] }

def CheckRunAsUser : Check :=
  { ID := "runAsUser"
    Level := .restricted
    Versions :=
      [ { MinimumVersion := MajorMinorVersion 1 23
          CheckPod := withOptions runAsUser_1_23 } ] }

/-- The three container groups in visitor order. -/
def PodSpec.allContainers (ps : PodSpec) : List Container :=
  ps.initContainers ++ ps.containers
    ++ ps.ephemeralContainers.map (·.ephemeralContainerCommon)

/-- A small pod used to instantiate the visitor theorem. -/
def visitPodW : PodSpec :=
  { initContainers := [{ name := "i0" }]
    containers := [{ name := "c0" }, { name := "c1" }]
    ephemeralContainers := [⟨{ name := "e0" }⟩] }

/-- A pod with no sysctl named net.ipv4.ip_local_reserved_ports. -/
def sysPodEqW : PodSpec :=
  { securityContext := some
      { sysctls := [{ name := "kernel.shm_rmid_forced" }, { name := "foo" }] } }

/-- A pod whose sysctls are allowed at 1.0 except one naming
net.ipv4.ip_local_reserved_ports. -/
def sysPodResW : PodSpec :=
  { securityContext := some
      { sysctls := [{ name := "net.ipv4.tcp_syncookies" },
                    { name := "net.ipv4.ip_local_reserved_ports" }] } }

/-- A pod setting runAsNonRoot nowhere. -/
def unsetPodW : PodSpec :=
  { initContainers := [{ name := "i" }]
    containers := [{ name := "a" }, { name := "b" }] }

/-!
## Theorems
-/

theorem visitLoop_length (wfe : Bool) (r : PathFn) (s : Nat)
    (l : List Container) : (visitLoop wfe r s l).length = l.length := by
  induction l generalizing s with
  | nil => rfl
  | cons c rest ih => simp [visitLoop, ih]

theorem visitLoop_map_fst (wfe : Bool) (r : PathFn) (s : Nat)
    (l : List Container) : (visitLoop wfe r s l).map Prod.fst = l := by
  induction l generalizing s with
  | nil => rfl
  | cons c rest ih => simp [visitLoop, ih]

theorem visitLoop_getElem (wfe : Bool) (r : PathFn) (s : Nat)
    (l : List Container) (i : Nat) :
    (visitLoop wfe r s l)[i]? =
      l[i]?.map (fun c => (c, if wfe then r.index (s + i) else none)) := by
  induction l generalizing s i with
  | nil => simp [visitLoop]
  | cons c rest ih =>
    cases i with
    | zero => simp [visitLoop]
    | succ j =>
      have h := ih (s + 1) j
      have e : s + 1 + j = s + (j + 1) := by omega
      rw [e] at h
      simpa [visitLoop] using h

theorem visitContainers_map_fst (ps : PodSpec) (opts : options) :
    (visitContainers ps opts).map Prod.fst = ps.allContainers := by
  simp [visitContainers, PodSpec.allContainers, visitLoop_map_fst]

/-- C1: the visitor trace has exactly one entry per container, in the
fixed order init containers, then regular containers, then ephemeral
containers (each group in source order); when field errors are enabled
the i-th entry of each group carries a `PathFn` realizing to
spec.initContainers[i], spec.containers[i] or spec.ephemeralContainers[i]
respectively, and carries the nil `PathFn` otherwise. -/
theorem visitContainers_spec (ps : PodSpec) (opts : options) :
    (visitContainers ps opts).length =
        ps.initContainers.length + ps.containers.length
          + ps.ephemeralContainers.length ∧
    (visitContainers ps opts).map Prod.fst = ps.allContainers ∧
    (∀ i, i < ps.initContainers.length →
      (visitContainers ps opts)[i]? =
        ps.initContainers[i]?.map (fun c =>
          (c, if opts.withFieldErrors then initContainersFldPath.index i
              else none))) ∧
    (∀ i, i < ps.containers.length →
      (visitContainers ps opts)[ps.initContainers.length + i]? =
        ps.containers[i]?.map (fun c =>
          (c, if opts.withFieldErrors then containersFldPath.index i
              else none))) ∧
    (∀ i, i < ps.ephemeralContainers.length →
      (visitContainers ps opts)[ps.initContainers.length
          + ps.containers.length + i]? =
        (ps.ephemeralContainers.map (·.ephemeralContainerCommon))[i]?.map
          (fun c =>
            (c, if opts.withFieldErrors then
                  ephemeralContainersFldPath.index i
                else none))) ∧
    (∀ i, ((initContainersFldPath.index i).realize).map FPath.render
        = some ("spec.initContainers[" ++ toString i ++ "]")) ∧
    (∀ i, ((containersFldPath.index i).realize).map FPath.render
        = some ("spec.containers[" ++ toString i ++ "]")) ∧
    (∀ i, ((ephemeralContainersFldPath.index i).realize).map FPath.render
        = some ("spec.ephemeralContainers[" ++ toString i ++ "]")) := by
  refine ⟨?_, visitContainers_map_fst ps opts, ?_, ?_, ?_,
    fun i => rfl, fun i => rfl, fun i => rfl⟩
  · simp only [visitContainers, List.length_append, visitLoop_length,
      List.length_map]
  · intro i hi
    unfold visitContainers
    rw [List.getElem?_append_left
        (by simp only [List.length_append, visitLoop_length]; omega),
      List.getElem?_append_left (by simp only [visitLoop_length]; omega),
      visitLoop_getElem]
    simp
  · intro i hi
    unfold visitContainers
    rw [List.getElem?_append_left
        (by simp only [List.length_append, visitLoop_length]; omega),
      List.getElem?_append_right (by simp only [visitLoop_length]; omega),
      visitLoop_length]
    have e : ps.initContainers.length + i - ps.initContainers.length = i := by
      omega
    rw [e, visitLoop_getElem]
    simp
  · intro i hi
    unfold visitContainers
    rw [List.getElem?_append_right
        (by simp only [List.length_append, visitLoop_length]; omega)]
    have e : ps.initContainers.length + ps.containers.length + i
        - (visitLoop opts.withFieldErrors initContainersFldPath 0
              ps.initContainers
            ++ visitLoop opts.withFieldErrors containersFldPath 0
              ps.containers).length = i := by
      simp [visitLoop_length]
    rw [e, visitLoop_getElem]
    simp

/-- Witness for C1: on a pod with one init, two regular and one ephemeral
container, the visit at global position 1+1 is regular container "c1"
paired with the path for spec.containers[1]. -/
theorem visitContainers_spec_witness :
    1 < visitPodW.containers.length ∧
    (visitContainers visitPodW { withFieldErrors := true })[visitPodW.initContainers.length + 1]? =
      some ({ name := "c1" }, containersFldPath.index 1) :=
  ⟨by decide,
   ((visitContainers_spec visitPodW { withFieldErrors := true }).2.2.2.1 1
      (by decide)).trans (by rfl)⟩

/-- C2: for the absent (nil) `PathFn` root, every composition via
`.child`, `.index` or `.key` is again nil; and whenever a parent realizes
to nil, realizing any composition over it also yields nil.  Composition
and realization are total Lean functions, so they cannot panic, and a nil
realization never carries a partial path. -/
theorem pathFn_nil_propagation (p : PathFn) (i : Nat) (s k : String) :
    (p = none → p.index i = none ∧ p.child s = none ∧ p.key k = none) ∧
    (p.realize = none →
      (p.index i).realize = none ∧ (p.child s).realize = none ∧
        (p.key k).realize = none) := by
  constructor
  · rintro rfl
    exact ⟨rfl, rfl, rfl⟩
  · intro h
    match p with
    | none => exact ⟨rfl, rfl, rfl⟩
    | some none => exact ⟨rfl, rfl, rfl⟩
    | some (some q) => simp [PathFn.realize] at h

/-- Witness for C2 at the nil root and at a closure returning nil. -/
theorem pathFn_nil_propagation_witness :
    (PathFn.index none 3 = none ∧ PathFn.child none "c" = none ∧
      PathFn.key none "k" = none) ∧
    ((PathFn.index (some none) 3).realize = none ∧
      (PathFn.child (some none) "c").realize = none ∧
      (PathFn.key (some none) "k").realize = none) :=
  ⟨(pathFn_nil_propagation none 3 "c" "k").1 rfl,
   (pathFn_nil_propagation (some none) 3 "c" "k").2 rfl⟩

/-- C3: after `Add "x" [e1]; Add "y"; Add "z" [e2]` on a fresh
accumulator, `Data` is exactly `["x","y","z"]` in insertion order; with
field errors enabled `Errs` is exactly the non-nil results of `e1` then
`e2` (nil constructors and nil results silently dropped), and with field
errors disabled `Errs` stays empty. -/
theorem violations_add_order (wfe : Bool) (e1 e2 : ErrFn) :
    ((((NewViolations String wfe).Add "x" [e1]).Add "y" []).Add "z" [e2]).Data
        = ["x", "y", "z"] ∧
    ((((NewViolations String wfe).Add "x" [e1]).Add "y" []).Add "z" [e2]).Errs
        = if wfe then [e1].filterMap ErrFn.run ++ [e2].filterMap ErrFn.run
          else [] := by
  constructor
  · simp [NewViolations, Violations.Add, Violations.Data]
  · cases wfe <;> simp [NewViolations, Violations.Add, Violations.Errs]

/-- C4 counterexample: `CheckRunAsUser` has no implementation at the
lowest supported schema version (1,0) — its only implementation has
minimum version (1,23). -/
theorem checkRunAsUser_versions_counterexample :
    CheckRunAsUser.Versions.map (·.MinimumVersion) = [MajorMinorVersion 1 23]
      ∧ ¬ ∃ v ∈ CheckRunAsUser.Versions,
            v.MinimumVersion = MajorMinorVersion 1 0 := by
  exact ⟨rfl, by decide⟩

/-- C4 amended: the `Versions` lists of `CheckSysctls`,
`CheckCapabilitiesRestricted` and `CheckRunAsUser` are each sorted
strictly ascending by `MinimumVersion`, and `CheckSysctls` has an
implementation at the lowest supported version (1,0); the other two
checks start at (1,22) and (1,23) respectively, with no (1,0)
implementation. -/
theorem check_versions_sorted :
    List.Pairwise (fun a b => Version.lt a.MinimumVersion b.MinimumVersion)
        CheckSysctls.Versions ∧
    List.Pairwise (fun a b => Version.lt a.MinimumVersion b.MinimumVersion)
        CheckCapabilitiesRestricted.Versions ∧
    List.Pairwise (fun a b => Version.lt a.MinimumVersion b.MinimumVersion)
        CheckRunAsUser.Versions ∧
    CheckSysctls.Versions.map (·.MinimumVersion)
        = [MajorMinorVersion 1 0, MajorMinorVersion 1 27] ∧
    CheckCapabilitiesRestricted.Versions.map (·.MinimumVersion)
        = [MajorMinorVersion 1 22, MajorMinorVersion 1 25] ∧
    CheckRunAsUser.Versions.map (·.MinimumVersion)
        = [MajorMinorVersion 1 23] := by
  refine ⟨?_, ?_, ?_, rfl, rfl, rfl⟩
  · simp [List.pairwise_cons, CheckSysctls, Version.lt, MajorMinorVersion]
  · simp [List.pairwise_cons, CheckCapabilitiesRestricted, Version.lt,
      MajorMinorVersion]
  · simp [List.pairwise_cons, CheckRunAsUser]

/-- C6 evaluated at its failing input: a pod with pod-level
runAsNonRoot=true and a single container "A" with runAsNonRoot=false,
with field errors enabled.  The decision, reason and subject are as the
claim expects, but `ErrList` comes back empty: `runAsNonRoot_1_0`
zero-initializes its accumulators (`var badSetters violations[string]`),
so `withFieldErrors` is false inside them and `violations.Add` drops
every error builder. -/
theorem runAsNonRoot_explicit_false_eval :
    runAsNonRoot_1_0 {}
      { securityContext := some { runAsNonRoot := some true }
        containers :=
          [{ name := "A"
             securityContext := some { runAsNonRoot := some false } }] }
      { withFieldErrors := true } =
      { Allowed := false
        ForbiddenReason := "runAsNonRoot != true"
        ForbiddenDetail :=
          "container \"A\" must not set securityContext.runAsNonRoot=false"
        ErrList := [] } := by
  rfl

/-- C8: `capabilitiesRestricted_1_25` admits any pod whose OS is set to
windows outright (the constant allowed result, independent of every
container and capability field), and on a pod with a nil OS field or a
non-windows OS name it returns exactly `capabilitiesRestricted_1_22` on
the same inputs. -/
theorem capabilitiesRestricted_1_25_gate (podMetadata : ObjectMeta)
    (podSpec : PodSpec) (opts : options) :
    (∀ osv, podSpec.os = some osv → osv.name = Windows →
      capabilitiesRestricted_1_25 podMetadata podSpec opts
        = { Allowed := true }) ∧
    (podSpec.os = none →
      capabilitiesRestricted_1_25 podMetadata podSpec opts
        = capabilitiesRestricted_1_22 podMetadata podSpec opts) ∧
    (∀ osv, podSpec.os = some osv → osv.name ≠ Windows →
      capabilitiesRestricted_1_25 podMetadata podSpec opts
        = capabilitiesRestricted_1_22 podMetadata podSpec opts) := by
  refine ⟨?_, ?_, ?_⟩
  · intro osv h hw
    simp [capabilitiesRestricted_1_25, h, hw]
  · intro h
    simp [capabilitiesRestricted_1_25, h]
  · intro osv h hw
    simp [capabilitiesRestricted_1_25, h, hw]

/-- Witness for C8: a windows pod with a capability-violating container
is admitted; the same pod with no OS field gets the 1.22 verdict. -/
theorem capabilitiesRestricted_1_25_gate_witness :
    capabilitiesRestricted_1_25 {}
        { os := some { name := "windows" }
          containers := [{ name := "A" }] } {}
      = { Allowed := true } ∧
    capabilitiesRestricted_1_25 {} { containers := [{ name := "A" }] } {}
      = capabilitiesRestricted_1_22 {} { containers := [{ name := "A" }] }
          {} :=
  ⟨(capabilitiesRestricted_1_25_gate {}
      { os := some { name := "windows" }, containers := [{ name := "A" }] }
      {}).1 ⟨"windows"⟩ rfl rfl,
   ((capabilitiesRestricted_1_25_gate {} { containers := [{ name := "A" }] }
      {}).2.1) rfl⟩

/-- C9: three volumes where only index 1 (named "b") uses a disallowed
source (hostPath): the check rejects, the detail names volume "b" and the
type hostPath, and with error production enabled the error list holds one
structured Forbidden error at spec.volumes[1]. -/
theorem restrictedVolumes_hostPath_eval :
    restrictedVolumes_1_0 {}
      { volumes :=
          [{ name := "a", configMap := some () },
           { name := "b", hostPath := some () },
           { name := "c", secret := some () }] }
      { withErrList := true } =
      { Allowed := false
        ForbiddenReason := "restricted volume types"
        ForbiddenDetail := "volume \"b\" uses restricted volume type \"hostPath\""
        ErrList :=
          [{ type := .forbidden
             field := "spec.volumes[1]"
             badValue := .strList ["spec.volumes[1].hostPath"]
             detail := "" }] } := by
  rfl

theorem allowed_1_27_Has_eq (n : String)
    (h : n ≠ "net.ipv4.ip_local_reserved_ports") :
    sysctls_allowed_1_27.Has n = sysctls_allowed_1_0.Has n := by
  simp only [StringSet.Has, sysctls_allowed_1_0, sysctls_allowed_1_27,
    NewString]
  rw [decide_eq_decide]
  simp only [List.mem_cons, List.not_mem_nil, or_false]
  tauto

theorem allowed_1_0_subset (n : String)
    (h : sysctls_allowed_1_0.Has n = true) :
    sysctls_allowed_1_27.Has n = true := by
  simp only [StringSet.Has, sysctls_allowed_1_0, sysctls_allowed_1_27,
    NewString, decide_eq_true_eq, List.mem_cons, List.not_mem_nil,
    or_false] at h ⊢
  tauto

theorem sysctlsLoop_set_congr (opts : options) (l : List Sysctl) :
    ∀ (i : Nat) (v : Violations String),
      (∀ s ∈ l, s.name ≠ "net.ipv4.ip_local_reserved_ports") →
      sysctlsLoop sysctls_allowed_1_0 opts i l v
        = sysctlsLoop sysctls_allowed_1_27 opts i l v := by
  induction l with
  | nil => intro i v _; rfl
  | cons s rest ih =>
    intro i v h
    have hn := h s (List.mem_cons_self s rest)
    have hrest := fun x hx => h x (List.mem_cons_of_mem s hx)
    simp only [sysctlsLoop]
    rw [allowed_1_27_Has_eq s.name hn]
    exact ih (i + 1) _ hrest

theorem sysctlsLoop_data (aset : StringSet) (opts : options)
    (l : List Sysctl) :
    ∀ (i : Nat) (v : Violations String),
      (sysctlsLoop aset opts i l v).data
        = v.data
            ++ (l.filter (fun s => !aset.Has s.name)).map Sysctl.name := by
  induction l with
  | nil => intro i v; simp [sysctlsLoop]
  | cons s rest ih =>
    intro i v
    simp only [sysctlsLoop]
    by_cases hc : aset.Has s.name
    · simp [List.filter_cons, hc, ih]
    · simp [List.filter_cons, hc, ih, Violations.Add]

/-- C5: the two version-gated sysctls implementations differ exactly on
net.ipv4.ip_local_reserved_ports.  When no sysctl bears that name the
whole results of `sysctls_1_0` and `sysctls_1_27` coincide; when all
sysctl names are 1.0-allowed except at least one bearing that name,
`sysctls_1_0` rejects with reason "forbidden sysctls" while
`sysctls_1_27` allows. -/
theorem sysctls_reserved_ports_gate (podMetadata : ObjectMeta)
    (ps : PodSpec) (opts : options) :
    ((∀ s ∈ ps.securityContextSysctls,
        s.name ≠ "net.ipv4.ip_local_reserved_ports") →
      sysctls_1_0 podMetadata ps opts = sysctls_1_27 podMetadata ps opts) ∧
    ((∀ s ∈ ps.securityContextSysctls,
        sysctls_allowed_1_0.Has s.name = true
          ∨ s.name = "net.ipv4.ip_local_reserved_ports") →
      (∃ s ∈ ps.securityContextSysctls,
        s.name = "net.ipv4.ip_local_reserved_ports") →
      (sysctls_1_0 podMetadata ps opts).Allowed = false ∧
      (sysctls_1_0 podMetadata ps opts).ForbiddenReason = "forbidden sysctls"
        ∧ sysctls_1_27 podMetadata ps opts = { Allowed := true }) := by
  constructor
  · intro h
    unfold sysctls_1_0 sysctls_1_27 sysctls
    rw [sysctlsLoop_set_congr opts _ 0 _ h]
  · intro hall hex
    obtain ⟨s0, hmem, hname⟩ := hex
    have hdata27 :
        (sysctlsLoop sysctls_allowed_1_27 opts 0 ps.securityContextSysctls
          { withFieldErrors := opts.withFieldErrors }).data = [] := by
      rw [sysctlsLoop_data]
      have hfil : ps.securityContextSysctls.filter
          (fun s => !sysctls_allowed_1_27.Has s.name) = [] := by
        rw [List.filter_eq_nil_iff]
        intro a ha
        rcases hall a ha with h10 | hres
        · simp [allowed_1_0_subset a.name h10]
        · have : sysctls_allowed_1_27.Has a.name = true := by
            rw [hres]; decide
          simp [this]
      simp [hfil]
    have hdata10 :
        (sysctlsLoop sysctls_allowed_1_0 opts 0 ps.securityContextSysctls
          { withFieldErrors := opts.withFieldErrors }).data ≠ [] := by
      rw [sysctlsLoop_data]
      intro hcontra
      simp only [List.nil_append] at hcontra
      rw [List.map_eq_nil_iff, List.filter_eq_nil_iff] at hcontra
      have hbad : ¬ (!sysctls_allowed_1_0.Has s0.name) = true :=
        hcontra s0 hmem
      have : sysctls_allowed_1_0.Has s0.name = false := by
        rw [hname]; decide
      simp [this] at hbad
    refine ⟨?_, ?_, ?_⟩
    · unfold sysctls_1_0 sysctls
      simp [Violations.Empty, List.isEmpty_eq_false.mpr hdata10]
    · unfold sysctls_1_0 sysctls
      simp [Violations.Empty, List.isEmpty_eq_false.mpr hdata10]
    · unfold sysctls_1_27 sysctls
      simp [Violations.Empty, hdata27]

/-- Witness for C5: a pod without the reserved-ports sysctl gets equal
results from both implementations; a pod with it is rejected at 1.0 and
allowed at 1.27. -/
theorem sysctls_reserved_ports_gate_witness :
    (sysctls_1_0 {} sysPodEqW {} = sysctls_1_27 {} sysPodEqW {}) ∧
    (sysctls_1_0 {} sysPodResW { withFieldErrors := true }).Allowed = false ∧
    (sysctls_1_0 {} sysPodResW
        { withFieldErrors := true }).ForbiddenReason = "forbidden sysctls" ∧
    sysctls_1_27 {} sysPodResW { withFieldErrors := true }
      = { Allowed := true } :=
  have h1 := (sysctls_reserved_ports_gate {} sysPodEqW {}).1 (by decide)
  have h2 := (sysctls_reserved_ports_gate {} sysPodResW
      { withFieldErrors := true }).2 (by decide)
    ⟨{ name := "net.ipv4.ip_local_reserved_ports" }, by decide, rfl⟩
  ⟨h1, h2.1, h2.2.1, h2.2.2⟩

theorem runAsNonRootFold_unset (opts : options)
    (L : List (Container × PathFn)) :
    ∀ (expl impl : Violations String) (errs : List ErrFn),
      (∀ cv ∈ L, cv.1.getRunAsNonRoot = none) →
      impl.withFieldErrors = false →
      L.foldl (runAsNonRootStep opts false) (expl, impl, errs)
        = (expl,
           { data := impl.data ++ L.map (fun cv => cv.1.name)
             errs := impl.errs
             withFieldErrors := false },
           errs) := by
  induction L with
  | nil =>
    intro expl impl errs _ hw
    cases impl
    simp_all
  | cons cv rest ih =>
    intro expl impl errs h hw
    have h1 := h cv (List.mem_cons_self cv rest)
    have hrest := fun x hx => h x (List.mem_cons_of_mem cv hx)
    simp only [List.foldl_cons, runAsNonRootStep, h1]
    rw [ih _ _ _ hrest (by simp [Violations.Add, hw])]
    simp [Violations.Add, hw]

/-- C7 amended: on a pod setting runAsNonRoot neither at pod level nor on
any container (and having at least one container), `runAsNonRoot_1_0`
rejects and its human detail lists every container as implicitly bad in
the "must set securityContext.runAsNonRoot=true" phrasing; the reason
code is the same "runAsNonRoot != true" used for the explicit-false case,
so it is the detail, not the reason code, that distinguishes "must set"
from "must not set false". -/
theorem runAsNonRoot_unset_amended (podMetadata : ObjectMeta)
    (ps : PodSpec) (opts : options)
    (hpod : ps.getRunAsNonRoot = none)
    (hcs : ∀ c ∈ ps.allContainers, c.getRunAsNonRoot = none)
    (hne : ps.allContainers ≠ []) :
    (runAsNonRoot_1_0 podMetadata ps opts).Allowed = false ∧
    (runAsNonRoot_1_0 podMetadata ps opts).ForbiddenReason
        = "runAsNonRoot != true" ∧
    (runAsNonRoot_1_0 podMetadata ps opts).ForbiddenDetail =
      "pod or " ++ pluralize "container" "containers" ps.allContainers.length
        ++ " " ++ joinQuote (ps.allContainers.map Container.name)
        ++ " must set securityContext.runAsNonRoot=true" := by
  have hvis : ∀ cv ∈ visitContainers ps opts,
      cv.1.getRunAsNonRoot = none := by
    intro cv hcv
    apply hcs
    have hm : cv.1 ∈ (visitContainers ps opts).map Prod.fst :=
      List.mem_map_of_mem Prod.fst hcv
    rwa [visitContainers_map_fst] at hm
  have hnames : (visitContainers ps opts).map (fun cv => cv.1.name)
      = ps.allContainers.map Container.name := by
    have he : (fun cv : Container × PathFn => cv.1.name)
        = Container.name ∘ Prod.fst := rfl
    rw [he, ← List.map_map, visitContainers_map_fst]
  have hne' : ps.allContainers.map Container.name ≠ [] := by
    simpa using hne
  have hfold := runAsNonRootFold_unset opts (visitContainers ps opts)
    {} {} [] hvis rfl
  simp [runAsNonRoot_1_0, hpod, hfold, Violations.Empty, Violations.Len,
    Violations.Data, Violations.Errs, hnames,
    List.isEmpty_eq_false.mpr hne', List.length_map]

/-- C7 counterexample: the reason code does not distinguish the two
cases.  An all-unset pod and an explicit-false pod both reject with the
identical reason code "runAsNonRoot != true"; only the human details
differ. -/
theorem runAsNonRoot_reason_counterexample :
    (runAsNonRoot_1_0 {} { containers := [{ name := "a" }] } {}).ForbiddenReason
      = (runAsNonRoot_1_0 {}
          { containers :=
              [{ name := "a"
                 securityContext := some { runAsNonRoot := some false } }] }
          {}).ForbiddenReason ∧
    (runAsNonRoot_1_0 {} { containers := [{ name := "a" }] } {}).ForbiddenDetail
      ≠ (runAsNonRoot_1_0 {}
          { containers :=
              [{ name := "a"
                 securityContext := some { runAsNonRoot := some false } }] }
          {}).ForbiddenDetail ∧
    (runAsNonRoot_1_0 {} { containers := [{ name := "a" }] } {}).Allowed
        = false ∧
    (runAsNonRoot_1_0 {}
        { containers :=
            [{ name := "a"
               securityContext := some { runAsNonRoot := some false } }] }
        {}).Allowed = false := by
  refine ⟨rfl, ?_, rfl, rfl⟩
  decide

/-- Witness for C7 at a pod with one init and two regular containers,
none setting runAsNonRoot. -/
theorem runAsNonRoot_unset_amended_witness :
    (runAsNonRoot_1_0 {} unsetPodW { withFieldErrors := true }).Allowed
        = false ∧
    (runAsNonRoot_1_0 {} unsetPodW { withFieldErrors := true }).ForbiddenReason
        = "runAsNonRoot != true" ∧
    (runAsNonRoot_1_0 {} unsetPodW { withFieldErrors := true }).ForbiddenDetail
        = "pod or containers \"i\", \"a\", \"b\" must set securityContext.runAsNonRoot=true" :=
  have h := runAsNonRoot_unset_amended {} unsetPodW { withFieldErrors := true }
    (by decide) (by decide) (by decide)
  ⟨h.1, h.2.1, h.2.2.trans (by rfl)⟩

/-- C10 evaluated at its failing input: a pod whose only volume (index 0,
named "v") sets the NFS source, with error production enabled.  The check
records "nfs" among the bad volume types and appends a Forbidden error at
spec.volumes[0], but the bad value it carries is
"spec.volumes[0].gitRepo" — the nfs case of the switch builds the bad
value with `Child("gitRepo")` — not the "spec.volumes[0].nfs" the claim
states. -/
theorem restrictedVolumes_nfs_eval :
    restrictedVolumes_1_0 {}
      { volumes := [{ name := "v", nfs := some () }] }
      { withErrList := true } =
      { Allowed := false
        ForbiddenReason := "restricted volume types"
        ForbiddenDetail := "volume \"v\" uses restricted volume type \"nfs\""
        ErrList :=
          [{ type := .forbidden
             field := "spec.volumes[0]"
             badValue := .strList ["spec.volumes[0].gitRepo"]
             detail := "" }] } := by
  rfl

end Policy
